import Mathlib

/-!
Verification of src/scopegreen.js, the SCOPEGREEN spreadsheet function.

The JavaScript function is shallowly embedded: JSON values are the inductive
type Json, JavaScript numbers in play are JSNum (arbitrary-precision integers,
scaled decimals, and NaN; the pipeline performs no fractional arithmetic),
and a JavaScript value that may be undefined is JsVal, that is Option Json.
Property access on a non-object is modelled as undefined, with one throw
modelled explicitly: on a body parsing to JSON null, the 429 gate reads
errorData.error, the runtime throws a TypeError, and the inner catch
returns the generic rate-limit row (see isNullJson). On the non-429 path a
parsed null body reaches line 124, where the same throw is converted by the
outer catch into a one-cell error row whose text is runtime specific; the
model routes that body to the raw-text fallback, which is likewise a single
cell. JSON.parse is embedded as an executable
fuel-driven parser, with two declared simplifications: numbers with an
exponent part whose value is not exactly representable follow big-integer
semantics rather than IEEE doubles, and parseInt ignores the hexadecimal 0x
prefix form. The external collaborators are inputs: the cache store is a
function from keys to optional stored text, the HTTP transport is an Except
value (a thrown error description, or a status code and body text), and a
flag records whether the cache put would throw (the code catches and logs
that failure, so the flag is never consulted).
-/

/-- JavaScript numbers reachable in this pipeline: integers, scaled decimals
(mantissa and number of fractional digits, normalized so that the last
fractional digit is nonzero), and NaN. -/
inductive JSNum where
  | int : Int → JSNum
  | dec : Int → Nat → JSNum
  | nan : JSNum
deriving Repr, DecidableEq

/-- JSON values, as produced by JSON.parse. -/
inductive Json where
  | null : Json
  | bool : Bool → Json
  | num : JSNum → Json
  | str : String → Json
  | arr : List Json → Json
  | obj : List (String × Json) → Json
deriving Repr

/-- A JavaScript value that may be undefined. -/
abbrev JsVal := Option Json

set_option maxRecDepth 16384

/-- Normalize a scaled decimal by stripping trailing zero fractional digits;
a decimal with no fractional part collapses to an integer, mirroring the way
JavaScript holds 2.0 and 2 as the same number. -/
def normDec (m : Int) : Nat → JSNum
  | 0 => .int m
  | p + 1 => if m % 10 = 0 then normDec (m / 10) p else .dec m (p + 1)

/-- Decimal rendering of the fractional form, used by String conversion. -/
def decToString (m : Int) (p : Nat) : String :=
  let digits := toString m.natAbs
  let padded := if digits.length ≤ p then
    String.mk (List.replicate (p + 1 - digits.length) '0') ++ digits else digits
  (if m < 0 then "-" else "") ++ padded.take (padded.length - p) ++ "." ++
    padded.drop (padded.length - p)

/-- JavaScript String() conversion of a number. -/
def jsNumToString : JSNum → String
  | .int n => toString n
  | .dec m p => decToString m p
  | .nan => "NaN"

/-- Truthiness of a number: zero and NaN are falsy. -/
def jsNumTruthy : JSNum → Bool
  | .int n => n ≠ 0
  | .dec m _ => m ≠ 0
  | .nan => false

/-- Numeric comparison, cross-multiplied for decimals; callers never compare
NaN (Math.min handles NaN before ordering is consulted). -/
def jsNumLe : JSNum → JSNum → Bool
  | .int a, .int b => a ≤ b
  | .int a, .dec n q => a * (10 : Int) ^ q ≤ n
  | .dec m p, .int b => m ≤ b * (10 : Int) ^ p
  | .dec m p, .dec n q => m * (10 : Int) ^ q ≤ n * (10 : Int) ^ p
  | _, _ => false

/-- Math.min on two numbers: NaN wins, otherwise the smaller argument. -/
def jsMin (a b : JSNum) : JSNum :=
  match a, b with
  | .nan, _ => .nan
  | _, .nan => .nan
  | x, y => if jsNumLe x y then x else y

/-- Floor of a number, none for NaN; drives the for-loop iteration count. -/
def jsNumFloor : JSNum → Option Int
  | .int k => some k
  | .dec m p => some (m / (10 : Int) ^ p)
  | .nan => none

mutual

/-- JavaScript String() conversion of a JSON value: null prints null, arrays
join their elements with commas (null elements joining as empty), objects
print the generic object tag. -/
def jsonToDisplay : Json → String
  | .null => "null"
  | .bool b => cond b "true" "false"
  | .num n => jsNumToString n
  | .str s => s
  | .arr xs => displayArrElems xs
  | .obj _ => "[object Object]"

def displayArrElems : List Json → String
  | [] => ""
  | [x] => displayElem x
  | x :: y :: rest => displayElem x ++ "," ++ displayArrElems (y :: rest)

def displayElem : Json → String
  | .null => ""
  | .bool b => cond b "true" "false"
  | .num n => jsNumToString n
  | .str s => s
  | .arr xs => displayArrElems xs
  | .obj _ => "[object Object]"

end

/-- String conversion of a possibly-undefined value, as used by template
literals and string concatenation. -/
def jsDisplay : JsVal → String
  | none => "undefined"
  | some j => jsonToDisplay j

/-- Truthiness of a possibly-undefined value. -/
def jsTruthy : JsVal → Bool
  | none => false
  | some .null => false
  | some (.bool b) => b
  | some (.num n) => jsNumTruthy n
  | some (.str s) => s ≠ ""
  | some (.arr _) => true
  | some (.obj _) => true

/-- The JavaScript a || b idiom. -/
def jsOr (a b : JsVal) : JsVal :=
  if jsTruthy a then a else b

/-- Field lookup in an object literal; with duplicate keys the last binding
wins, as in objects built by JSON.parse. -/
def objLookup (fs : List (String × Json)) (k : String) : Option Json :=
  match fs.reverse.find? (fun kv => kv.1 == k) with
  | some kv => some kv.2
  | none => none

/-- Property access: defined on objects, undefined elsewhere. -/
def jget : JsVal → String → JsVal
  | some (.obj fs), k => objLookup fs k
  | _, _ => none

/-- Substring check over character lists, embedding String.prototype.includes. -/
def charsHavePre : List Char → List Char → Bool
  | [], _ => true
  | _ :: _, [] => false
  | p :: ps, c :: cs => p = c && charsHavePre ps cs

def charsContain (pat : List Char) : List Char → Bool
  | [] => charsHavePre pat []
  | c :: cs => charsHavePre pat (c :: cs) || charsContain pat cs

/-- s.includes(pat). -/
def jsIncludes (s pat : String) : Bool :=
  charsContain pat.data s.data

/-- Leading decimal digits of a character list: accumulated value, how many
digits were consumed, and the remainder. -/
def takeDigitsAux : List Char → Nat → Nat → Nat × Nat × List Char
  | c :: cs, acc, cnt =>
    if c.isDigit then takeDigitsAux cs (acc * 10 + (c.toNat - 48)) (cnt + 1)
    else (acc, cnt, c :: cs)
  | [], acc, cnt => (acc, cnt, [])

/-- parseInt: convert to string elsewhere, then skip whitespace, read an
optional sign and leading digits; no digits means NaN. The 0x hexadecimal
form is not modelled. -/
def jsParseInt (s : String) : JSNum :=
  let cs := s.data.dropWhile (fun c => c.isWhitespace)
  let signed : Bool × List Char :=
    match cs with
    | '-' :: r => (true, r)
    | '+' :: r => (false, r)
    | _ => (false, cs)
  match signed.2 with
  | c :: _ =>
    if c.isDigit then
      let v := (takeDigitsAux signed.2 0 0).1
      .int (if signed.1 then -(v : Int) else (v : Int))
    else .nan
  | [] => .nan

/-- JSON whitespace skip. -/
def skipWs : List Char → List Char
  | [] => []
  | c :: cs => if c = ' ' || c = '\t' || c = '\n' || c = '\r' then skipWs cs else c :: cs

/-- Hexadecimal digit value, for string escapes. -/
def hexVal (c : Char) : Option Nat :=
  if c.isDigit then some (c.toNat - 48)
  else if 'a' ≤ c ∧ c ≤ 'f' then some (c.toNat - 87)
  else if 'A' ≤ c ∧ c ≤ 'F' then some (c.toNat - 55)
  else none

/-- Parse the body of a JSON string after the opening quote, with escapes. -/
def parseStrAux : List Char → String → Option (String × List Char)
  | [], _ => none
  | '"' :: rest, acc => some (acc, rest)
  | '\\' :: '"' :: rest, acc => parseStrAux rest (acc.push '"')
  | '\\' :: '\\' :: rest, acc => parseStrAux rest (acc.push '\\')
  | '\\' :: '/' :: rest, acc => parseStrAux rest (acc.push '/')
  | '\\' :: 'b' :: rest, acc => parseStrAux rest (acc.push (Char.ofNat 8))
  | '\\' :: 'f' :: rest, acc => parseStrAux rest (acc.push (Char.ofNat 12))
  | '\\' :: 'n' :: rest, acc => parseStrAux rest (acc.push '\n')
  | '\\' :: 'r' :: rest, acc => parseStrAux rest (acc.push (Char.ofNat 13))
  | '\\' :: 't' :: rest, acc => parseStrAux rest (acc.push '\t')
  | '\\' :: 'u' :: a :: b :: c :: d :: rest, acc =>
    match hexVal a, hexVal b, hexVal c, hexVal d with
    | some x, some y, some z, some w =>
      parseStrAux rest (acc.push (Char.ofNat (((x * 16 + y) * 16 + z) * 16 + w)))
    | _, _, _, _ => none
  | '\\' :: _, _ => none
  | c :: rest, acc => if c.toNat < 32 then none else parseStrAux rest (acc.push c)

/-- Build the number for a parsed mantissa, fraction and exponent. Exponents
are evaluated over arbitrary-precision integers and scaled decimals; IEEE
overflow to Infinity is not modelled. -/
def mkJsonNum (neg : Bool) (ip fp fcnt : Nat) (ex : Int) : Json :=
  let mantissa : Int := (ip * 10 ^ fcnt + fp : Nat)
  let mantissa := if neg then -mantissa else mantissa
  let scale : Int := ex - (fcnt : Int)
  if 0 ≤ scale then .num (normDec (mantissa * (10 : Int) ^ scale.toNat) 0)
  else .num (normDec mantissa (-scale).toNat)

/-- Parse a JSON number (leading-zero rule, optional fraction and exponent). -/
def parseNumber (cs : List Char) : Option (Json × List Char) :=
  let signed : Bool × List Char :=
    match cs with
    | '-' :: r => (true, r)
    | _ => (false, cs)
  match signed.2 with
  | c :: _ =>
    if c.isDigit then
      let ipr := takeDigitsAux signed.2 0 0
      if c = '0' ∧ 2 ≤ ipr.2.1 then none
      else
        let fracr : Nat × Nat × List Char :=
          match ipr.2.2 with
          | '.' :: cs3 =>
            match cs3 with
            | d :: _ => if d.isDigit then takeDigitsAux cs3 0 0 else (0, 0, ipr.2.2)
            | [] => (0, 0, ipr.2.2)
          | _ => (0, 0, ipr.2.2)
        if fracr.2.2 ≠ ipr.2.2 ∨ ¬(ipr.2.2.head? = some '.') then
          let expr : Option (Int × List Char) :=
            match fracr.2.2 with
            | 'e' :: cs4 | 'E' :: cs4 =>
              let esigned : Bool × List Char :=
                match cs4 with
                | '-' :: r => (true, r)
                | '+' :: r => (false, r)
                | _ => (false, cs4)
              match esigned.2 with
              | e1 :: _ =>
                if e1.isDigit then
                  let er := takeDigitsAux esigned.2 0 0
                  some ((if esigned.1 then -(er.1 : Int) else (er.1 : Int)), er.2.2)
                else none
              | [] => none
            | other => some (0, other)
          match expr with
          | some (ex, rest) => some (mkJsonNum signed.1 ipr.1 fracr.1 fracr.2.1 ex, rest)
          | none => none
        else none
    else none
  | [] => none

mutual

/-- Fuel-driven JSON value parser, embedding JSON.parse. -/
def parseVal : Nat → List Char → Option (Json × List Char)
  | 0, _ => none
  | f + 1, cs =>
    match skipWs cs with
    | 'n' :: 'u' :: 'l' :: 'l' :: rest => some (.null, rest)
    | 't' :: 'r' :: 'u' :: 'e' :: rest => some (.bool true, rest)
    | 'f' :: 'a' :: 'l' :: 's' :: 'e' :: rest => some (.bool false, rest)
    | '"' :: rest =>
      match parseStrAux rest "" with
      | some (s, r) => some (.str s, r)
      | none => none
    | '{' :: rest =>
      match skipWs rest with
      | '}' :: r2 => some (.obj [], r2)
      | _ => parseMembers f rest []
    | '[' :: rest =>
      match skipWs rest with
      | ']' :: r2 => some (.arr [], r2)
      | _ => parseElems f rest []
    | c :: rest => if c = '-' ∨ c.isDigit then parseNumber (c :: rest) else none
    | [] => none

def parseMembers : Nat → List Char → List (String × Json) → Option (Json × List Char)
  | 0, _, _ => none
  | f + 1, cs, acc =>
    match skipWs cs with
    | '"' :: rest =>
      match parseStrAux rest "" with
      | none => none
      | some (k, rest2) =>
        match skipWs rest2 with
        | ':' :: rest3 =>
          match parseVal f rest3 with
          | none => none
          | some (v, rest4) =>
            match skipWs rest4 with
            | ',' :: rest5 => parseMembers f rest5 (acc ++ [(k, v)])
            | '}' :: rest5 => some (.obj (acc ++ [(k, v)]), rest5)
            | _ => none
        | _ => none
    | _ => none

def parseElems : Nat → List Char → List Json → Option (Json × List Char)
  | 0, _, _ => none
  | f + 1, cs, acc =>
    match parseVal f cs with
    | none => none
    | some (v, rest) =>
      match skipWs rest with
      | ',' :: rest2 => parseElems f rest2 (acc ++ [v])
      | ']' :: rest2 => some (.arr (acc ++ [v]), rest2)
      | _ => none

end

/-- JSON.parse: a full-input parse of the body text, none on any syntax
error. -/
def parseJson (s : String) : Option Json :=
  match parseVal (s.length + 8) s.data with
  | some (j, rest) => if (skipWs rest).isEmpty then some j else none
  | none => none

/-- JSON.stringify escaping for one character. -/
def escChar (c : Char) : String :=
  if c = '"' then "\\\""
  else if c = '\\' then "\\\\"
  else if c = '\n' then "\\n"
  else if c = Char.ofNat 13 then "\\r"
  else if c = '\t' then "\\t"
  else if c = Char.ofNat 8 then "\\b"
  else if c = Char.ofNat 12 then "\\f"
  else if c.toNat < 32 then
    "\\u00" ++ String.singleton (if c.toNat / 16 < 10 then Char.ofNat (48 + c.toNat / 16)
      else Char.ofNat (87 + c.toNat / 16)) ++
      String.singleton (if c.toNat % 16 < 10 then Char.ofNat (48 + c.toNat % 16)
      else Char.ofNat (87 + c.toNat % 16))
  else String.singleton c

/-- JSON.stringify of a string literal. -/
def stringifyStr (s : String) : String :=
  "\"" ++ s.data.foldl (fun acc c => acc ++ escChar c) "" ++ "\""

/-- JSON.stringify of a number: NaN serializes as null. -/
def jsNumToJsonText : JSNum → String
  | .int n => toString n
  | .dec m p => decToString m p
  | .nan => "null"

mutual

/-- JSON.stringify, for the cache writer. -/
def stringifyJson : Json → String
  | .null => "null"
  | .bool b => cond b "true" "false"
  | .num n => jsNumToJsonText n
  | .str s => stringifyStr s
  | .arr xs => "[" ++ stringifyArr xs ++ "]"
  | .obj fs => "\x7b" ++ stringifyObj fs ++ "\x7d"

def stringifyArr : List Json → String
  | [] => ""
  | [x] => stringifyJson x
  | x :: y :: rest => stringifyJson x ++ "," ++ stringifyArr (y :: rest)

def stringifyObj : List (String × Json) → String
  | [] => ""
  | [kv] => stringifyStr kv.1 ++ ":" ++ stringifyJson kv.2
  | kv :: y :: rest => stringifyStr kv.1 ++ ":" ++ stringifyJson kv.2 ++ "," ++ stringifyObj (y :: rest)

end

/-- The nine raw arguments of SCOPEGREEN, each a spreadsheet-supplied value
that may be undefined. -/
structure RawInputs where
  itemName : JsVal
  year : JsVal
  geography : JsVal
  metric : JsVal
  domain : JsVal
  numMatches : JsVal
  mode : JsVal
  notEnglish : JsVal
  unit : JsVal
deriving Repr

/-- The normalized parameters after the preparation block (lines 30 to 38 of
the source). -/
structure Params where
  itemName : String
  year : String
  geography : String
  metric : String
  domain : String
  numMatches : JSNum
  mode : String
  notEnglish : Bool
  unit : String
deriving Repr, DecidableEq

/-- notEnglish === true || notEnglish === "true", strict equality. -/
def normNotEnglish : JsVal → Bool
  | some (.bool true) => true
  | some (.str s) => s == "true"
  | _ => false

/-- The parameter preparation block: truthy inputs are stringified and
trimmed (numMatches goes through parseInt, mode is lower-cased), falsy
inputs take the documented defaults. -/
def normalizeParams (r : RawInputs) : Params where
  itemName := if jsTruthy r.itemName then (jsDisplay r.itemName).trim else ""
  year := if jsTruthy r.year then (jsDisplay r.year).trim else ""
  geography := if jsTruthy r.geography then (jsDisplay r.geography).trim else ""
  metric := if jsTruthy r.metric then (jsDisplay r.metric).trim else "Carbon footprint"
  domain := if jsTruthy r.domain then (jsDisplay r.domain).trim else ""
  numMatches := if jsTruthy r.numMatches then jsParseInt (jsDisplay r.numMatches) else .int 1
  mode := if jsTruthy r.mode then ((jsDisplay r.mode).trim).toLower else "lite"
  notEnglish := normNotEnglish r.notEnglish
  unit := if jsTruthy r.unit then (jsDisplay r.unit).trim else ""

/-- Line 41 of the source: the cache key template literal, underscore
delimited. -/
def cacheKey (p : Params) : String :=
  "LCA_" ++ p.itemName ++ "_" ++ p.year ++ "_" ++ p.geography ++ "_" ++
    p.metric ++ "_" ++ p.domain ++ "_" ++ jsNumToString p.numMatches ++ "_" ++
    p.mode ++ "_" ++ (cond p.notEnglish "true" "false") ++ "_" ++ p.unit

/-- Characters encodeURIComponent leaves unescaped. -/
def uriUnreserved (c : Char) : Bool :=
  c.isAlphanum || c = '-' || c = '_' || c = '.' || c = '!' || c = '~' ||
    c = '*' || c = '\'' || c = '(' || c = ')'

/-- Hexadecimal digit, upper case, for percent escapes. -/
def hexDigitU (n : Nat) : Char :=
  if n < 10 then Char.ofNat (48 + n) else Char.ofNat (55 + n)

/-- encodeURIComponent: unreserved characters pass through, everything else
is percent-encoded byte by byte over its UTF-8 form. -/
def encodeURIComponent (s : String) : String :=
  s.data.foldl (fun acc c =>
    if uriUnreserved c then acc.push c
    else (String.singleton c).toUTF8.toList.foldl (fun a b =>
      (a.push '%').push (hexDigitU (b.toNat / 16)) |>.push (hexDigitU (b.toNat % 16))) acc) ""

/-- The num_matches fragment of the query string; appended only when the
normalized numMatches is truthy (NaN and 0 are falsy). -/
def numMatchesSegment (nm : JSNum) : String :=
  if jsNumTruthy nm then "&num_matches=" ++ encodeURIComponent (jsNumToString nm) else ""

/-- Lines 61 to 72 of the source: the outbound query string. -/
def buildQuery (p : Params) : String :=
  "item_name=" ++ encodeURIComponent p.itemName ++
    (if p.year ≠ "" then "&year=" ++ encodeURIComponent p.year else "") ++
    (if p.geography ≠ "" then "&geography=" ++ encodeURIComponent p.geography else "") ++
    (if p.metric ≠ "" then "&metric=" ++ encodeURIComponent p.metric else "") ++
    (if p.mode ≠ "" then "&mode=" ++ encodeURIComponent p.mode else "") ++
    "&web_mode=false" ++
    numMatchesSegment p.numMatches ++
    (if p.domain ≠ "" then "&domain=" ++ encodeURIComponent p.domain else "") ++
    "&not_english=" ++ encodeURIComponent (cond p.notEnglish "true" "false") ++
    (if p.unit ≠ "" then "&unit=" ++ encodeURIComponent p.unit else "")

def API_BASE_URL : String :=
  "https://scopegreen-main-1a948ab.d2.zuplo.dev/api/metrics/search"

/-- The full request URL for normalized parameters. -/
def requestUrl (p : Params) : String :=
  API_BASE_URL ++ "?" ++ buildQuery p

/-- m.rank === i for the loop counter i: true exactly when the rank field is
the number i. -/
def rankIs (i : Nat) (m : Json) : Bool :=
  match jget (some m) "rank" with
  | some (.num (.int n)) => n == (i : Int)
  | _ => false

/-- data.matches.find on the rank predicate. -/
def findRank (ms : List Json) (i : Nat) : Option Json :=
  ms.find? (rankIs i)

/-- The eight cells pushed for loop counter i, or no cells when no match has
that rank (lines 140 to 168 of the source). -/
def matchCells (i : Nat) (ms : List Json) : List JsVal :=
  match findRank ms i with
  | none => []
  | some m =>
    [some (.str ("Match " ++ toString i ++ ": " ++ jsDisplay (jget (some m) "matched_name"))),
     jget (jget (some m) "metric") "value",
     jget (jget (some m) "metric") "unit",
     jsOr (jget (some m) "year") (some (.str "")),
     jsOr (jget (some m) "geography") (some (.str "")),
     jsOr (jget (some m) "source") (some (.str "")),
     jsOr (jget (some m) "source_link") (some (.str "")),
     jsOr (jget (some m) "conversion_info") (some (.str ""))]

/-- The counters visited by the for loop running i from 1 while
i <= Math.min(numMatches, matches.length). -/
def loopIndices (bound : JSNum) : List Nat :=
  match jsNumFloor bound with
  | some k => if 1 ≤ k then List.range' 1 k.toNat else []
  | none => []

/-- The final explanation cell: data.explanation if truthy, else the empty
string. -/
def explanationCell (expl : JsVal) : JsVal :=
  if jsTruthy expl then expl else some (.str "")

/-- The success-path row: the per-rank cells for every visited counter, then
the explanation cell. -/
def formatRow (nm : JSNum) (ms : List Json) (expl : JsVal) : List JsVal :=
  ((loopIndices (jsMin nm (.int ms.length))).map (fun i => matchCells i ms)).flatten ++
    [explanationCell expl]

/-- JSON.stringify([result]): undefined cells serialize as null inside the
one-row table. -/
def serializeTable (row : List JsVal) : String :=
  stringifyJson (.arr [.arr (row.map (fun c => c.getD .null))])

/-- What one invocation returns: the value parsed back out of the cache on a
hit, or a freshly built table of rows. -/
inductive SgResult where
  | cached : Json → SgResult
  | table : List (List JsVal) → SgResult
deriving Repr

/-- One invocation observed from outside: the returned value, the URL handed
to the HTTP client (none when no network call was made), and the attempted
cache write (key, serialized text, TTL seconds). -/
structure SgOutput where
  result : SgResult
  requested : Option String
  cachePut : Option (String × String × Nat)
deriving Repr

/-- The 429 branch detail: when the parsed body has a truthy error field with
a truthy message, the specific rate-limit cell text. -/
def rateLimitDetail (ed : Json) : Option String :=
  if jsTruthy (jget (some ed) "error") && jsTruthy (jget (jget (some ed) "error") "message") then
    some ("Rate limit exceeded: " ++ jsDisplay (jget (jget (some ed) "error") "message"))
  else none

/-- Lines 129 and 130 of the source: a truthy string message containing the
no-good-match marker. -/
def noGoodMatch (data : Json) : Bool :=
  match jget (some data) "message" with
  | some (.str s) => (s ≠ "" : Bool) && jsIncludes s "No good match was found"
  | _ => false

/-- Lines 192 to 197 of the source: the fallback for an unexpected shape. -/
def fallbackRow (url : String) (data : Json) : SgOutput where
  result := .table [[some (.str ("Message from API: " ++ jsDisplay (jget (some data) "message")))]]
  requested := some url
  cachePut := none

/-- Classification of a response body past the 429 gate (lines 113 to 197):
parse failure passes the raw text through, then error, no-match, matches and
fallback branches in order; only the matches branch formats a row and
attempts the cache write. -/
def classifyParsed (key url : String) (nm : JSNum) (body : String) : SgOutput :=
  match parseJson body with
  | none => ⟨.table [[some (.str body)]], some url, none⟩
  | some data =>
    if jsTruthy (jget (some data) "error") then
      ⟨.table [[some (.str (jsDisplay (jget (jget (some data) "error") "code") ++ ": " ++
        jsDisplay (jget (jget (some data) "error") "message")))]], some url, none⟩
    else if noGoodMatch data then
      ⟨.table [[jget (some data) "message"]], some url, none⟩
    else
      match jget (some data) "matches" with
      | some (.arr ms) =>
        if ms.isEmpty then
          if jsTruthy (jget (some data) "message") then fallbackRow url data
          else ⟨.table [[some (.str body)]], some url, none⟩
        else
          let row := formatRow nm ms (jget (some data) "explanation")
          ⟨.table [row], some url, some (key, serializeTable row, 120)⟩
      | _ =>
        if jsTruthy (jget (some data) "message") then fallbackRow url data
        else ⟨.table [[some (.str body)]], some url, none⟩

/-- Whether a parsed body is JSON null. Inside the 429 gate this is the one
parsed value on which line 103 reading errorData.error throws a TypeError
(in JavaScript property access throws on null and undefined only, and
JSON.parse never returns undefined); that throw lands in the inner catch at
lines 106 to 109, which returns the generic rate-limit row. Property access
on every other parsed value is undefined rather than a throw. -/
def isNullJson : Json → Bool
  | .null => true
  | _ => false

/-- Lines 99 to 110 of the source: the 429 gate. A 429 whose body does not
parse returns the generic rate-limit cell, as does one whose body parses to
JSON null (the error-field access throws and the inner catch fires); one
whose body parses with a truthy error.message returns the specific cell;
any other 429 falls through to the ordinary classification. -/
def handleResponse (key url : String) (nm : JSNum) (status : Int) (body : String) : SgOutput :=
  if status = 429 then
    match parseJson body with
    | none => ⟨.table [[some (.str "Rate limit exceeded: Please try again later.")]], some url, none⟩
    | some ed =>
      if isNullJson ed then
        ⟨.table [[some (.str "Rate limit exceeded: Please try again later.")]], some url, none⟩
      else
        match rateLimitDetail ed with
        | some msg => ⟨.table [[some (.str msg)]], some url, none⟩
        | none => classifyParsed key url nm body
  else classifyParsed key url nm body

/-- Lines 198 to 206 of the source: the catch branch, keyed on the error
description text. -/
def errorCell (e : String) : String :=
  if jsIncludes e "timeout" || jsIncludes e "execution time" then
    "Error: API request timed out. Try simplifying your query."
  else "Error: " ++ e

/-- The network path: the URL is handed to the HTTP client; a thrown fetch is
converted by the catch branch, a returned response is classified. -/
def networkPath (key url : String) (nm : JSNum)
    (fetch : Except String (Int × String)) : SgOutput :=
  match fetch with
  | .error e => ⟨.table [[some (.str (errorCell e))]], some url, none⟩
  | .ok sb => handleResponse key url nm sb.1 sb.2

/-- The whole function. The cache store and the HTTP transport are inputs;
putThrows says whether the cache write would throw, which the code catches
and logs without consulting it further, so it influences nothing. -/
def SCOPEGREEN (raw : RawInputs) (cache : String → Option String)
    (fetch : Except String (Int × String)) (_putThrows : Bool) : SgOutput :=
  let p := normalizeParams raw
  let key := cacheKey p
  let url := requestUrl p
  match cache key with
  | some txt =>
    if txt = "" then networkPath key url p.numMatches fetch
    else
      match parseJson txt with
      | some j => ⟨.cached j, none, none⟩
      | none => networkPath key url p.numMatches fetch
  | none => networkPath key url p.numMatches fetch

/-- The empty cache store, for runs on the network path. -/
def noCache : String → Option String := fun _ => none

/-- With an empty cache the run is the network path on the derived key and
URL. -/
lemma scopegreen_noCache (raw : RawInputs) (fetch : Except String (Int × String))
    (pt : Bool) :
    SCOPEGREEN raw noCache fetch pt =
      networkPath (cacheKey (normalizeParams raw)) (requestUrl (normalizeParams raw))
        (normalizeParams raw).numMatches fetch := rfl

/-- A response with a status other than 429 goes straight to classification. -/
lemma handleResponse_not429 (key url : String) (nm : JSNum) (status : Int)
    (body : String) (hs : status ≠ 429) :
    handleResponse key url nm status body = classifyParsed key url nm body := by
  unfold handleResponse
  rw [if_neg hs]

/-- The matches branch of the classifier: row formatting plus the cache
write attempt. -/
lemma classify_success (key url : String) (nm : JSNum) (body : String)
    (data : Json) (ms : List Json)
    (hp : parseJson body = some data)
    (he : jsTruthy (jget (some data) "error") = false)
    (hn : noGoodMatch data = false)
    (hm : jget (some data) "matches" = some (.arr ms))
    (hne : ms.isEmpty = false) :
    classifyParsed key url nm body =
      ⟨.table [formatRow nm ms (jget (some data) "explanation")], some url,
       some (key, serializeTable (formatRow nm ms (jget (some data) "explanation")), 120)⟩ := by
  unfold classifyParsed
  rw [hp]
  simp only [he, hn, hm, hne, Bool.false_eq_true, if_false]

/-- Every classifier output is a one-row table. -/
lemma classify_single_row (key url : String) (nm : JSNum) (body : String) :
    ∃ row, (classifyParsed key url nm body).result = .table [row] := by
  unfold classifyParsed
  cases hp : parseJson body with
  | none => exact ⟨_, rfl⟩
  | some data =>
    by_cases he : jsTruthy (jget (some data) "error") = true
    · simp only [he, if_true]
      exact ⟨_, rfl⟩
    · simp only [he, if_false]
      by_cases hn : noGoodMatch data = true
      · simp only [hn, if_true]
        exact ⟨_, rfl⟩
      · simp only [hn, if_false]
        cases hm : jget (some data) "matches" with
        | none =>
          by_cases hmsg : jsTruthy (jget (some data) "message") = true
          · simp only [hmsg, if_true]
            exact ⟨_, rfl⟩
          · simp only [hmsg, if_false]
            exact ⟨_, rfl⟩
        | some v =>
          cases v with
          | arr ms =>
            by_cases hne : ms.isEmpty = true
            · simp only [hne, if_true]
              by_cases hmsg : jsTruthy (jget (some data) "message") = true
              · simp only [hmsg, if_true]
                exact ⟨_, rfl⟩
              · simp only [hmsg, if_false]
                exact ⟨_, rfl⟩
            · simp only [hne, if_false]
              exact ⟨_, rfl⟩
          | null =>
            by_cases hmsg : jsTruthy (jget (some data) "message") = true
            · simp only [hmsg, if_true]; exact ⟨_, rfl⟩
            · simp only [hmsg, if_false]; exact ⟨_, rfl⟩
          | bool b =>
            by_cases hmsg : jsTruthy (jget (some data) "message") = true
            · simp only [hmsg, if_true]; exact ⟨_, rfl⟩
            · simp only [hmsg, if_false]; exact ⟨_, rfl⟩
          | num n =>
            by_cases hmsg : jsTruthy (jget (some data) "message") = true
            · simp only [hmsg, if_true]; exact ⟨_, rfl⟩
            · simp only [hmsg, if_false]; exact ⟨_, rfl⟩
          | str s =>
            by_cases hmsg : jsTruthy (jget (some data) "message") = true
            · simp only [hmsg, if_true]; exact ⟨_, rfl⟩
            · simp only [hmsg, if_false]; exact ⟨_, rfl⟩
          | obj fs =>
            by_cases hmsg : jsTruthy (jget (some data) "message") = true
            · simp only [hmsg, if_true]; exact ⟨_, rfl⟩
            · simp only [hmsg, if_false]; exact ⟨_, rfl⟩

/-- Inversion for the cache write: an attempted put can only come from the
matches branch, with TTL 120, the derived key, and the serialized returned
row. -/
lemma classify_put_inv (key url : String) (nm : JSNum) (body : String)
    (k v : String) (t : Nat)
    (h : (classifyParsed key url nm body).cachePut = some (k, v, t)) :
    t = 120 ∧ k = key ∧
    ∃ data ms, parseJson body = some data ∧
      jsTruthy (jget (some data) "error") = false ∧
      noGoodMatch data = false ∧
      jget (some data) "matches" = some (.arr ms) ∧
      ms.isEmpty = false ∧
      ∃ row, (classifyParsed key url nm body).result = .table [row] ∧
        v = serializeTable row := by
  unfold classifyParsed at h ⊢
  split at h
  · simp at h
  next data heq =>
    split at h
    · simp at h
    next he =>
      split at h
      · simp at h
      next hn =>
        simp only [Bool.not_eq_true] at he hn
        split at h
        next ms hm =>
          split at h
          · split at h <;> simp [fallbackRow] at h
          next hne =>
            simp only [Bool.not_eq_true] at hne
            simp only [Option.some.injEq, Prod.mk.injEq] at h
            refine ⟨h.2.2.symm, h.1.symm, data, ms, heq, he, hn, hm, hne,
              formatRow nm ms (jget (some data) "explanation"), ?_, h.2.1.symm⟩
            simp [he, hn, hne]
        next hm =>
          split at h <;> simp [fallbackRow] at h

/-- All nine arguments absent, the way a sheet calls =SCOPEGREEN() with only
defaults. -/
def rawNone : RawInputs := ⟨none, none, none, none, none, none, none, none, none⟩

/-- A 429 body that parses as JSON but has no error.message field. -/
def c1EmptyObj : String := "\x7b\x7d"

/-- The spec example 429 body. -/
def c1SlowBody : String := "\x7b\"error\":\x7b\"message\":\"slow down\"\x7d\x7d"

/-- C1: the claim says a 429 whose body parses without an error.message field
still yields the generic rate-limit cell; on the body consisting of an empty
JSON object the function instead falls through and returns the raw body
text, so the claim is false. -/
theorem c1_429_fallthrough_counterexample :
    parseJson c1EmptyObj = some (.obj []) ∧
    (SCOPEGREEN rawNone noCache (.ok (429, c1EmptyObj)) false).result =
      .table [[some (.str c1EmptyObj)]] ∧
    c1EmptyObj ≠ "Rate limit exceeded: Please try again later." :=
  ⟨rfl, rfl, by decide⟩

/-- C1 (amended): on a 429 response, a body that fails to parse yields the
generic rate-limit cell, and so does a body that parses to JSON null, where
the error-field access throws and the inner catch fires; a body whose parse
has a truthy error.message yields the specific rate-limit cell; any other
429 body falls through and is handled exactly like a non-429 response. -/
theorem c1_429_gate (raw : RawInputs) (body : String) (pt : Bool) :
    (parseJson body = none →
      (SCOPEGREEN raw noCache (.ok (429, body)) pt).result =
        .table [[some (.str "Rate limit exceeded: Please try again later.")]]) ∧
    (∀ ed, parseJson body = some ed → isNullJson ed = true →
      (SCOPEGREEN raw noCache (.ok (429, body)) pt).result =
        .table [[some (.str "Rate limit exceeded: Please try again later.")]]) ∧
    (∀ ed msg, parseJson body = some ed → rateLimitDetail ed = some msg →
      (SCOPEGREEN raw noCache (.ok (429, body)) pt).result =
        .table [[some (.str msg)]]) ∧
    (∀ ed, parseJson body = some ed → isNullJson ed = false →
      rateLimitDetail ed = none →
      SCOPEGREEN raw noCache (.ok (429, body)) pt =
        SCOPEGREEN raw noCache (.ok (200, body)) pt) := by
  refine ⟨?_, ?_, ?_, ?_⟩
  · intro hp
    rw [scopegreen_noCache]
    show (handleResponse _ _ _ 429 body).result = _
    unfold handleResponse
    rw [if_pos (show (429 : Int) = 429 from rfl)]
    simp only [hp]
  · intro ed hp hnull
    rw [scopegreen_noCache]
    show (handleResponse _ _ _ 429 body).result = _
    unfold handleResponse
    rw [if_pos (show (429 : Int) = 429 from rfl)]
    simp only [hp, hnull, if_true]
  · intro ed msg hp hrl
    have hnull : isNullJson ed = false := by
      cases ed <;> first
        | rfl
        | simp [rateLimitDetail, jget, jsTruthy] at hrl
    rw [scopegreen_noCache]
    show (handleResponse _ _ _ 429 body).result = _
    unfold handleResponse
    rw [if_pos (show (429 : Int) = 429 from rfl)]
    simp only [hp, hnull, Bool.false_eq_true, if_false, hrl]
  · intro ed hp hnull hrl
    rw [scopegreen_noCache, scopegreen_noCache]
    show handleResponse _ _ _ 429 body = handleResponse _ _ _ 200 body
    rw [handleResponse_not429 _ _ _ 200 body (by decide)]
    unfold handleResponse
    rw [if_pos (show (429 : Int) = 429 from rfl)]
    simp only [hp, hnull, Bool.false_eq_true, if_false, hrl]

/-- C1 witness: the four branches at concrete inputs, among them the body
null for the inner-catch throw and the spec example body for the specific
message. -/
theorem c1_429_gate_witness :
    (SCOPEGREEN rawNone noCache (.ok (429, "oops")) false).result =
      .table [[some (.str "Rate limit exceeded: Please try again later.")]] ∧
    (SCOPEGREEN rawNone noCache (.ok (429, "null")) false).result =
      .table [[some (.str "Rate limit exceeded: Please try again later.")]] ∧
    (SCOPEGREEN rawNone noCache (.ok (429, c1SlowBody)) false).result =
      .table [[some (.str "Rate limit exceeded: slow down")]] ∧
    SCOPEGREEN rawNone noCache (.ok (429, c1EmptyObj)) false =
      SCOPEGREEN rawNone noCache (.ok (200, c1EmptyObj)) false :=
  ⟨(c1_429_gate rawNone "oops" false).1 rfl,
   (c1_429_gate rawNone "null" false).2.1 .null rfl rfl,
   (c1_429_gate rawNone c1SlowBody false).2.2.1
     (.obj [("error", .obj [("message", .str "slow down")])])
     "Rate limit exceeded: slow down" rfl rfl,
   (c1_429_gate rawNone c1EmptyObj false).2.2.2 (.obj []) rfl rfl rfl⟩

/-- Two distinct normalized parameter tuples whose cache keys coincide: the
underscore delimiter also occurs inside the itemName value. -/
def pCollA : Params := ⟨"a", "b_c", "", "Carbon footprint", "", .int 1, "lite", false, ""⟩

def pCollB : Params := ⟨"a_b", "c", "", "Carbon footprint", "", .int 1, "lite", false, ""⟩

/-- C2: the key builder is not injective; two tuples differing in itemName
and year produce the same key. -/
theorem c2_cache_key_collision :
    pCollA ≠ pCollB ∧ cacheKey pCollA = cacheKey pCollB :=
  ⟨by decide, rfl⟩

/-- C2 (amended): the cache key is a deterministic pure function of the
normalized tuple, but it is not injective: tuples differing in a field can
yield the same key, because the underscore delimiter is not escaped inside
field values. -/
theorem c2_cache_key_deterministic_not_injective (p q : Params) :
    (p = q → cacheKey p = cacheKey q) ∧
    ∃ p2 q2 : Params, p2 ≠ q2 ∧ cacheKey p2 = cacheKey q2 :=
  ⟨fun h => h ▸ rfl, pCollA, pCollB, by decide, rfl⟩

/-- C2 witness: the determinism half applied at a concrete tuple. -/
theorem c2_cache_key_deterministic_witness :
    cacheKey pCollA = cacheKey pCollA :=
  (c2_cache_key_deterministic_not_injective pCollA pCollA).1 rfl

/-- A located rank contributes exactly eight cells. -/
lemma matchCells_length_of_found (i : Nat) (ms : List Json)
    (h : (findRank ms i).isSome) : (matchCells i ms).length = 8 := by
  obtain ⟨m, hm⟩ := Option.isSome_iff_exists.mp h
  unfold matchCells
  rw [hm]
  rfl

/-- With numMatches 3 and a two-element matches array holding ranks 1 and 2,
the formatted row has 17 cells. -/
lemma formatRow_n3_two_found (ms : List Json) (expl : JsVal)
    (hlen : ms.length = 2)
    (h1 : (findRank ms 1).isSome) (h2 : (findRank ms 2).isSome) :
    (formatRow (.int 3) ms expl).length = 17 := by
  unfold formatRow
  rw [hlen]
  rw [show ((2 : Nat) : Int) = (2 : Int) from rfl]
  rw [show loopIndices (jsMin (.int 3) (.int 2)) = [1, 2] from rfl]
  simp [matchCells_length_of_found 1 ms h1, matchCells_length_of_found 2 ms h2]

/-- A two-element list is not empty. -/
lemma isEmpty_false_of_length_two (ms : List Json) (hlen : ms.length = 2) :
    ms.isEmpty = false := by
  cases ms with
  | nil => simp at hlen
  | cons a l => rfl

def rawN3 : RawInputs := { rawNone with numMatches := some (.num (.int 3)) }

def rawN2 : RawInputs := { rawNone with numMatches := some (.num (.int 2)) }

/-- A success body with two matches that both carry rank 1. -/
def c3DupBody : String :=
  "\x7b\"matches\":[\x7b\"rank\":1,\"matched_name\":\"a\",\"metric\":\x7b\"value\":5,\"unit\":\"kg\"\x7d\x7d,\x7b\"rank\":1,\"matched_name\":\"b\",\"metric\":\x7b\"value\":6,\"unit\":\"kg\"\x7d\x7d]\x7d"

def c3DupMatches : List Json :=
  [.obj [("rank", .num (.int 1)), ("matched_name", .str "a"),
         ("metric", .obj [("value", .num (.int 5)), ("unit", .str "kg")])],
   .obj [("rank", .num (.int 1)), ("matched_name", .str "b"),
         ("metric", .obj [("value", .num (.int 6)), ("unit", .str "kg")])]]

def c3DupData : Json :=
  .obj [("matches", .arr c3DupMatches)]

def c3DupRow : List JsVal :=
  [some (.str "Match 1: a"), some (.num (.int 5)), some (.str "kg"),
   some (.str ""), some (.str ""), some (.str ""), some (.str ""), some (.str ""),
   some (.str "")]

/-- C3: the claim quantifies over every two-element matches array under
numMatches 3 and asserts 17 cells; a two-element array whose ranks are both
1 yields a nine-cell row, so the claim is false without an assumption on the
rank fields. -/
theorem c3_rank_gap_counterexample :
    parseJson c3DupBody = some c3DupData ∧
    jget (some c3DupData) "matches" = some (.arr c3DupMatches) ∧
    c3DupMatches.length = 2 ∧
    (normalizeParams rawN3).numMatches = .int 3 ∧
    (SCOPEGREEN rawN3 noCache (.ok (200, c3DupBody)) false).result =
      .table [c3DupRow] ∧
    c3DupRow.length = 9 ∧ ¬ c3DupRow.length = 17 :=
  ⟨rfl, rfl, rfl, rfl, rfl, rfl, by decide⟩

/-- C3 (amended): with numMatches 3 and a two-element matches array in which
both rank 1 and rank 2 are found, the success row has 8 times 2 plus 1,
that is 17, cells, because the loop bound is the minimum of numMatches and
the array length. -/
theorem c3_min_bound_row_width (raw : RawInputs) (body : String) (data : Json)
    (ms : List Json) (pt : Bool)
    (hp : parseJson body = some data)
    (he : jsTruthy (jget (some data) "error") = false)
    (hn : noGoodMatch data = false)
    (hm : jget (some data) "matches" = some (.arr ms))
    (hlen : ms.length = 2)
    (hnm : (normalizeParams raw).numMatches = .int 3)
    (h1 : (findRank ms 1).isSome) (h2 : (findRank ms 2).isSome) :
    ∃ row, (SCOPEGREEN raw noCache (.ok (200, body)) pt).result = .table [row] ∧
      row.length = 17 := by
  have hne := isEmpty_false_of_length_two ms hlen
  refine ⟨formatRow (.int 3) ms (jget (some data) "explanation"), ?_, ?_⟩
  · rw [scopegreen_noCache]
    show (handleResponse _ _ _ 200 body).result = _
    rw [handleResponse_not429 _ _ _ _ _ (by decide), hnm,
      classify_success _ _ _ _ data ms hp he hn hm hne]
  · exact formatRow_n3_two_found ms _ hlen h1 h2

def c3RankedMatches : List Json :=
  [.obj [("rank", .num (.int 1)), ("matched_name", .str "a"),
         ("metric", .obj [("value", .num (.int 5)), ("unit", .str "kg")])],
   .obj [("rank", .num (.int 2)), ("matched_name", .str "b"),
         ("metric", .obj [("value", .num (.int 6)), ("unit", .str "kg")])]]

def c3RankedData : Json :=
  .obj [("matches", .arr c3RankedMatches)]

def c3RankedBody : String :=
  "\x7b\"matches\":[\x7b\"rank\":1,\"matched_name\":\"a\",\"metric\":\x7b\"value\":5,\"unit\":\"kg\"\x7d\x7d,\x7b\"rank\":2,\"matched_name\":\"b\",\"metric\":\x7b\"value\":6,\"unit\":\"kg\"\x7d\x7d]\x7d"

/-- C3 witness: the amended statement at a concrete two-match body. -/
theorem c3_min_bound_row_width_witness :
    ∃ row, (SCOPEGREEN rawN3 noCache (.ok (200, c3RankedBody)) false).result =
      .table [row] ∧ row.length = 17 :=
  c3_min_bound_row_width rawN3 c3RankedBody c3RankedData c3RankedMatches false
    rfl rfl rfl rfl rfl rfl rfl rfl

/-- C4: with numMatches 2 and matches of ranks 1 and 2, the success row is
exactly these 17 cells: for each of the two ranks, the labelled matched
name, the metric value, the metric unit, then year, geography, source,
source link and conversion info each defaulting to the empty string, and
finally the explanation cell (the explanation if truthy, else the empty
string). -/
theorem c4_success_row_layout (raw : RawInputs) (body : String) (data : Json)
    (ms : List Json) (m1 m2 : Json) (pt : Bool)
    (hp : parseJson body = some data)
    (he : jsTruthy (jget (some data) "error") = false)
    (hn : noGoodMatch data = false)
    (hm : jget (some data) "matches" = some (.arr ms))
    (hlen : ms.length = 2)
    (hnm : (normalizeParams raw).numMatches = .int 2)
    (h1 : findRank ms 1 = some m1) (h2 : findRank ms 2 = some m2) :
    (SCOPEGREEN raw noCache (.ok (200, body)) pt).result = .table
      [[some (.str ("Match 1: " ++ jsDisplay (jget (some m1) "matched_name"))),
        jget (jget (some m1) "metric") "value",
        jget (jget (some m1) "metric") "unit",
        jsOr (jget (some m1) "year") (some (.str "")),
        jsOr (jget (some m1) "geography") (some (.str "")),
        jsOr (jget (some m1) "source") (some (.str "")),
        jsOr (jget (some m1) "source_link") (some (.str "")),
        jsOr (jget (some m1) "conversion_info") (some (.str "")),
        some (.str ("Match 2: " ++ jsDisplay (jget (some m2) "matched_name"))),
        jget (jget (some m2) "metric") "value",
        jget (jget (some m2) "metric") "unit",
        jsOr (jget (some m2) "year") (some (.str "")),
        jsOr (jget (some m2) "geography") (some (.str "")),
        jsOr (jget (some m2) "source") (some (.str "")),
        jsOr (jget (some m2) "source_link") (some (.str "")),
        jsOr (jget (some m2) "conversion_info") (some (.str "")),
        explanationCell (jget (some data) "explanation")]] := by
  have hne := isEmpty_false_of_length_two ms hlen
  rw [scopegreen_noCache]
  show (handleResponse _ _ _ 200 body).result = _
  rw [handleResponse_not429 _ _ _ _ _ (by decide), hnm,
    classify_success _ _ _ _ data ms hp he hn hm hne]
  show SgResult.table [formatRow (.int 2) ms (jget (some data) "explanation")] = _
  have hrow : formatRow (.int 2) ms (jget (some data) "explanation") =
      matchCells 1 ms ++ matchCells 2 ms ++
        [explanationCell (jget (some data) "explanation")] := by
    unfold formatRow
    rw [hlen, show ((2 : Nat) : Int) = (2 : Int) from rfl,
      show loopIndices (jsMin (.int 2) (.int 2)) = [1, 2] from rfl]
    simp
  rw [hrow]
  unfold matchCells
  rw [h1, h2]
  rfl

def c4Matches : List Json :=
  [.obj [("rank", .num (.int 1)), ("matched_name", .str "steel"),
         ("metric", .obj [("value", .num (.dec 185 2)), ("unit", .str "kgCO2e/kg")]),
         ("year", .num (.int 2020)), ("geography", .str "EU"),
         ("source", .str "S"), ("source_link", .str "https://s.example"),
         ("conversion_info", .str "ci")],
   .obj [("rank", .num (.int 2)), ("matched_name", .str "iron"),
         ("metric", .obj [("value", .num (.int 2)), ("unit", .str "kgCO2e/kg")])]]

def c4Data : Json :=
  .obj [("matches", .arr c4Matches), ("explanation", .str "exp")]

def c4Body : String :=
  "\x7b\"matches\":[\x7b\"rank\":1,\"matched_name\":\"steel\",\"metric\":\x7b\"value\":1.85,\"unit\":\"kgCO2e/kg\"\x7d,\"year\":2020,\"geography\":\"EU\",\"source\":\"S\",\"source_link\":\"https://s.example\",\"conversion_info\":\"ci\"\x7d,\x7b\"rank\":2,\"matched_name\":\"iron\",\"metric\":\x7b\"value\":2,\"unit\":\"kgCO2e/kg\"\x7d\x7d],\"explanation\":\"exp\"\x7d" 

/-- C4 witness: the layout theorem at a concrete two-match response. -/
theorem c4_success_row_layout_witness :
    (SCOPEGREEN rawN2 noCache (.ok (200, c4Body)) false).result = .table
      [[some (.str ("Match 1: " ++ jsDisplay (jget (some (c4Matches.get ⟨0, by decide⟩)) "matched_name"))),
        jget (jget (some (c4Matches.get ⟨0, by decide⟩)) "metric") "value",
        jget (jget (some (c4Matches.get ⟨0, by decide⟩)) "metric") "unit",
        jsOr (jget (some (c4Matches.get ⟨0, by decide⟩)) "year") (some (.str "")),
        jsOr (jget (some (c4Matches.get ⟨0, by decide⟩)) "geography") (some (.str "")),
        jsOr (jget (some (c4Matches.get ⟨0, by decide⟩)) "source") (some (.str "")),
        jsOr (jget (some (c4Matches.get ⟨0, by decide⟩)) "source_link") (some (.str "")),
        jsOr (jget (some (c4Matches.get ⟨0, by decide⟩)) "conversion_info") (some (.str "")),
        some (.str ("Match 2: " ++ jsDisplay (jget (some (c4Matches.get ⟨1, by decide⟩)) "matched_name"))),
        jget (jget (some (c4Matches.get ⟨1, by decide⟩)) "metric") "value",
        jget (jget (some (c4Matches.get ⟨1, by decide⟩)) "metric") "unit",
        jsOr (jget (some (c4Matches.get ⟨1, by decide⟩)) "year") (some (.str "")),
        jsOr (jget (some (c4Matches.get ⟨1, by decide⟩)) "geography") (some (.str "")),
        jsOr (jget (some (c4Matches.get ⟨1, by decide⟩)) "source") (some (.str "")),
        jsOr (jget (some (c4Matches.get ⟨1, by decide⟩)) "source_link") (some (.str "")),
        jsOr (jget (some (c4Matches.get ⟨1, by decide⟩)) "conversion_info") (some (.str "")),
        explanationCell (jget (some c4Data) "explanation")]] :=
  c4_success_row_layout rawN2 c4Body c4Data c4Matches
    (c4Matches.get ⟨0, by decide⟩) (c4Matches.get ⟨1, by decide⟩) false
    rfl rfl rfl rfl rfl rfl rfl rfl

/-- C5: a non-429 response whose body is not valid JSON is passed through as
a single-cell row holding the raw body text. -/
theorem c5_malformed_body_passthrough (raw : RawInputs) (status : Int)
    (body : String) (pt : Bool)
    (hs : status ≠ 429) (hp : parseJson body = none) :
    (SCOPEGREEN raw noCache (.ok (status, body)) pt).result =
      .table [[some (.str body)]] := by
  rw [scopegreen_noCache]
  show (handleResponse _ _ _ status body).result = _
  rw [handleResponse_not429 _ _ _ _ _ hs]
  unfold classifyParsed
  rw [hp]

/-- C5 witness: a 500 response with a non-JSON body. -/
theorem c5_malformed_body_passthrough_witness :
    (SCOPEGREEN rawNone noCache (.ok (500, "Internal Server Error")) false).result =
      .table [[some (.str "Internal Server Error")]] :=
  c5_malformed_body_passthrough rawNone 500 "Internal Server Error" false
    (by decide) rfl

/-- C6: on a cache hit whose stored text parses, the parsed value is
returned and neither the HTTP client nor the cache writer is touched; if the
stored text fails to parse, the run is identical to a run with an empty
cache, so the failure is swallowed and the network path proceeds. -/
theorem c6_cache_hit_no_fetch (raw : RawInputs) (cache : String → Option String)
    (fetch : Except String (Int × String)) (pt : Bool) (txt : String)
    (hget : cache (cacheKey (normalizeParams raw)) = some txt) :
    (∀ j, txt ≠ "" → parseJson txt = some j →
      SCOPEGREEN raw cache fetch pt = ⟨.cached j, none, none⟩) ∧
    (parseJson txt = none →
      SCOPEGREEN raw cache fetch pt = SCOPEGREEN raw noCache fetch pt) := by
  constructor
  · intro j hne hp
    unfold SCOPEGREEN
    simp only [hget]
    rw [if_neg hne]
    simp only [hp]
  · intro hp
    rw [scopegreen_noCache]
    unfold SCOPEGREEN
    simp only [hget]
    by_cases he : txt = ""
    · rw [if_pos he]
    · rw [if_neg he]
      simp only [hp]

def c6GoodCache : String → Option String :=
  fun k => if k = cacheKey (normalizeParams rawNone) then some "[[\"x\"]]" else none

def c6BadCache : String → Option String :=
  fun k => if k = cacheKey (normalizeParams rawNone) then some "corrupt" else none

/-- C6 witness: a parsing hit short-circuits; a corrupt entry behaves as a
miss. -/
theorem c6_cache_hit_no_fetch_witness :
    SCOPEGREEN rawNone c6GoodCache (.ok (200, "x")) false =
      ⟨.cached (.arr [.arr [.str "x"]]), none, none⟩ ∧
    SCOPEGREEN rawNone c6BadCache (.ok (200, "x")) false =
      SCOPEGREEN rawNone noCache (.ok (200, "x")) false :=
  ⟨(c6_cache_hit_no_fetch rawNone c6GoodCache (.ok (200, "x")) false "[[\"x\"]]" rfl).1
     (.arr [.arr [.str "x"]]) (by decide) rfl,
   (c6_cache_hit_no_fetch rawNone c6BadCache (.ok (200, "x")) false "corrupt" rfl).2 rfl⟩

/-- C8: an exception whose description contains the substring timeout (or
execution time) is converted to the fixed timed-out single-cell row. -/
theorem c8_timeout_message (raw : RawInputs) (e : String) (pt : Bool)
    (h : jsIncludes e "timeout" = true ∨ jsIncludes e "execution time" = true) :
    (SCOPEGREEN raw noCache (.error e) pt).result =
      .table [[some (.str "Error: API request timed out. Try simplifying your query.")]] := by
  have hc : errorCell e = "Error: API request timed out. Try simplifying your query." := by
    unfold errorCell
    rcases h with h | h <;> simp [h]
  rw [scopegreen_noCache]
  show (⟨.table [[some (.str (errorCell e))]], some (requestUrl (normalizeParams raw)),
    none⟩ : SgOutput).result = _
  rw [hc]

/-- C8 witness: the two substrings at concrete error descriptions. -/
theorem c8_timeout_message_witness :
    (SCOPEGREEN rawNone noCache
        (.error "Exceeded maximum execution time") false).result =
      .table [[some (.str "Error: API request timed out. Try simplifying your query.")]] :=
  c8_timeout_message rawNone "Exceeded maximum execution time" false (Or.inr rfl)

/-- C9: when the raw numMatches is truthy but parseInt yields NaN, the
normalized numMatches is NaN, a non-empty-matches success formats a row of
exactly one cell (the explanation cell), and the num_matches fragment of the
outbound query string is empty. -/
theorem c9_nan_num_matches (raw : RawInputs) (body : String) (data : Json)
    (ms : List Json) (pt : Bool)
    (ht : jsTruthy raw.numMatches = true)
    (hnan : jsParseInt (jsDisplay raw.numMatches) = .nan)
    (hp : parseJson body = some data)
    (he : jsTruthy (jget (some data) "error") = false)
    (hn : noGoodMatch data = false)
    (hm : jget (some data) "matches" = some (.arr ms))
    (hne : ms.isEmpty = false) :
    (normalizeParams raw).numMatches = .nan ∧
    (SCOPEGREEN raw noCache (.ok (200, body)) pt).result =
      .table [[explanationCell (jget (some data) "explanation")]] ∧
    numMatchesSegment (normalizeParams raw).numMatches = "" ∧
    (SCOPEGREEN raw noCache (.ok (200, body)) pt).requested =
      some (requestUrl (normalizeParams raw)) := by
  have hnm : (normalizeParams raw).numMatches = .nan := by
    show (if jsTruthy raw.numMatches = true then jsParseInt (jsDisplay raw.numMatches)
      else .int 1) = .nan
    rw [if_pos ht]
    exact hnan
  have hrow : formatRow JSNum.nan ms (jget (some data) "explanation") =
      [explanationCell (jget (some data) "explanation")] := rfl
  refine ⟨hnm, ?_, ?_, ?_⟩
  · rw [scopegreen_noCache]
    show (handleResponse _ _ _ 200 body).result = _
    rw [handleResponse_not429 _ _ _ _ _ (by decide), hnm,
      classify_success _ _ _ _ data ms hp he hn hm hne, hrow]
  · rw [hnm]
    rfl
  · rw [scopegreen_noCache]
    show (handleResponse _ _ _ 200 body).requested = _
    rw [handleResponse_not429 _ _ _ _ _ (by decide), hnm,
      classify_success _ _ _ _ data ms hp he hn hm hne]

def rawNaN : RawInputs := { rawNone with numMatches := some (.str "three") }

def c9Matches : List Json :=
  [.obj [("rank", .num (.int 1)), ("matched_name", .str "a"),
         ("metric", .obj [("value", .num (.int 5)), ("unit", .str "kg")])]]

def c9Data : Json :=
  .obj [("matches", .arr c9Matches), ("explanation", .str "why")]

def c9Body : String :=
  "\x7b\"matches\":[\x7b\"rank\":1,\"matched_name\":\"a\",\"metric\":\x7b\"value\":5,\"unit\":\"kg\"\x7d\x7d],\"explanation\":\"why\"\x7d"

/-- C9 witness: numMatches given as the word three. -/
theorem c9_nan_num_matches_witness :
    (normalizeParams rawNaN).numMatches = .nan ∧
    (SCOPEGREEN rawNaN noCache (.ok (200, c9Body)) false).result =
      .table [[explanationCell (jget (some c9Data) "explanation")]] ∧
    numMatchesSegment (normalizeParams rawNaN).numMatches = "" ∧
    (SCOPEGREEN rawNaN noCache (.ok (200, c9Body)) false).requested =
      some (requestUrl (normalizeParams rawNaN)) :=
  c9_nan_num_matches rawNaN c9Body c9Data c9Matches false
    rfl rfl rfl rfl rfl rfl rfl

/-- Every response handler output is a one-row table. -/
lemma handle_single_row (key url : String) (nm : JSNum) (status : Int)
    (body : String) :
    ∃ row, (handleResponse key url nm status body).result = .table [row] := by
  unfold handleResponse
  split
  · cases hpj : parseJson body with
    | none => exact ⟨_, rfl⟩
    | some ed =>
      dsimp only
      by_cases hnull : isNullJson ed = true
      · rw [if_pos hnull]
        exact ⟨_, rfl⟩
      · rw [if_neg hnull]
        cases hrl : rateLimitDetail ed with
        | some msg => simp only [hrl]; exact ⟨_, rfl⟩
        | none => simp only [hrl]; exact classify_single_row key url nm body
  · exact classify_single_row key url nm body

/-- Every network-path output is a one-row table. -/
lemma network_single_row (key url : String) (nm : JSNum)
    (fetch : Except String (Int × String)) :
    ∃ row, (networkPath key url nm fetch).result = .table [row] := by
  cases fetch with
  | error e => exact ⟨_, rfl⟩
  | ok sb => exact handle_single_row key url nm sb.1 sb.2

/-- C10: every invocation either returns the parsed cache hit or a table of
exactly one row, in every branch. -/
theorem c10_single_row_table (raw : RawInputs) (cache : String → Option String)
    (fetch : Except String (Int × String)) (pt : Bool) :
    (∃ j, (SCOPEGREEN raw cache fetch pt).result = .cached j) ∨
    (∃ row, (SCOPEGREEN raw cache fetch pt).result = .table [row]) := by
  unfold SCOPEGREEN
  cases hc : cache (cacheKey (normalizeParams raw)) with
  | none =>
    simp only [hc]
    exact Or.inr (network_single_row _ _ _ fetch)
  | some txt =>
    simp only [hc]
    by_cases he : txt = ""
    · rw [if_pos he]
      exact Or.inr (network_single_row _ _ _ fetch)
    · rw [if_neg he]
      cases hpj : parseJson txt with
      | none => exact Or.inr (network_single_row _ _ _ fetch)
      | some j => exact Or.inl ⟨j, rfl⟩

/-- A value with a located field is an object, hence not JSON null. -/
lemma isNullJson_false_of_jget (data : Json) (k : String) (v : Json)
    (h : jget (some data) k = some v) : isNullJson data = false := by
  cases data <;> first
    | rfl
    | simp [jget] at h

/-- C7: the cache put is attempted exactly on the match-bearing success
branch, with the derived key, the serialized returned one-row table, and TTL
120 seconds; every other branch leaves the cache untouched; and whether the
put itself would throw has no effect on what is returned. -/
theorem c7_cache_write_policy (raw : RawInputs)
    (fetch : Except String (Int × String)) (b1 b2 : Bool) :
    (∀ k v t, (SCOPEGREEN raw noCache fetch b1).cachePut = some (k, v, t) →
      t = 120 ∧ k = cacheKey (normalizeParams raw) ∧
      ∃ status body data ms, fetch = .ok (status, body) ∧
        parseJson body = some data ∧
        jsTruthy (jget (some data) "error") = false ∧
        noGoodMatch data = false ∧
        jget (some data) "matches" = some (.arr ms) ∧
        ms.isEmpty = false ∧
        ∃ row, (SCOPEGREEN raw noCache fetch b1).result = .table [row] ∧
          v = serializeTable row) ∧
    (∀ status body data ms, fetch = .ok (status, body) →
      parseJson body = some data →
      (status = 429 → rateLimitDetail data = none) →
      jsTruthy (jget (some data) "error") = false →
      noGoodMatch data = false →
      jget (some data) "matches" = some (.arr ms) →
      ms.isEmpty = false →
      (SCOPEGREEN raw noCache fetch b1).cachePut =
        some (cacheKey (normalizeParams raw),
          serializeTable (formatRow (normalizeParams raw).numMatches ms
            (jget (some data) "explanation")), 120)) ∧
    SCOPEGREEN raw noCache fetch b1 = SCOPEGREEN raw noCache fetch b2 := by
  refine ⟨?_, ?_, rfl⟩
  · intro k v t h
    rw [scopegreen_noCache] at h ⊢
    cases fetch with
    | error e => simp [networkPath] at h
    | ok sb =>
      simp only [networkPath] at h ⊢
      by_cases hst : sb.1 = 429
      · unfold handleResponse at h ⊢
        rw [if_pos hst] at h ⊢
        split at h
        · simp at h
        next ed heq =>
          split at h
          · simp at h
          next hnull =>
            split at h
            · simp at h
            next hrl =>
              obtain ⟨ht, hk, data, ms, hp, he, hn, hm, hne, row, hres, hv⟩ :=
                classify_put_inv _ _ _ _ _ _ _ h
              refine ⟨ht, hk, sb.1, sb.2, data, ms, rfl, hp, he, hn, hm, hne,
                row, ?_, hv⟩
              rw [if_neg hnull]
              exact hres
      · rw [handleResponse_not429 _ _ _ _ _ hst] at h ⊢
        obtain ⟨ht, hk, data, ms, hp, he, hn, hm, hne, row, hres, hv⟩ :=
          classify_put_inv _ _ _ _ _ _ _ h
        exact ⟨ht, hk, sb.1, sb.2, data, ms, rfl, hp, he, hn, hm, hne,
          row, hres, hv⟩
  · intro status body data ms hf hp h429 he hn hm hne
    subst hf
    rw [scopegreen_noCache]
    simp only [networkPath]
    by_cases hst : status = 429
    · unfold handleResponse
      rw [if_pos hst]
      have hnull := isNullJson_false_of_jget data "matches" (Json.arr ms) hm
      simp only [hp, hnull, Bool.false_eq_true, if_false, h429 hst]
      rw [classify_success _ _ _ _ data ms hp he hn hm hne]
    · rw [handleResponse_not429 _ _ _ _ _ hst]
      rw [classify_success _ _ _ _ data ms hp he hn hm hne]

/-- C7 witness: the positive direction at a concrete match-bearing success
response, with the put-throw flag raised. -/
theorem c7_cache_write_policy_witness :
    (SCOPEGREEN rawN2 noCache (.ok (200, c4Body)) true).cachePut =
      some (cacheKey (normalizeParams rawN2),
        serializeTable (formatRow (normalizeParams rawN2).numMatches c4Matches
          (jget (some c4Data) "explanation")), 120) :=
  (c7_cache_write_policy rawN2 (.ok (200, c4Body)) true false).2.1
    200 c4Body c4Data c4Matches rfl rfl
    (fun hst => absurd hst (by decide)) rfl rfl rfl rfl
